import Mathlib

/-!
Shallow embedding of `dataset_coco2017/coco2017_offline_setup.py`, the
offline installer for the COCO 2017 dataset in tensorflow-datasets, and
proofs about its stages: the progress reporter, the fetch stage
(`download_coco2017`), the install stage (`install_coco2017`) and the
orchestrator (`main`).

Modelling conventions:
- byte counts are natural numbers; Python float arithmetic in the progress
  reporter is modelled by exact rational arithmetic, and Python `round`
  (banker's rounding, half to even) by `pyRoundDiv` / `roundHalfEven`;
- the filesystem is an explicit state (`SysState`): the download-cache
  directory content as a list of (filename, bytes) pairs, the set of
  existing staging directories and their files, and the registry of
  installed splits;
- the network (`urllib.request.urlretrieve`) and the external
  tensorflow-datasets library (`tfds.load`, `builder.download_and_prepare`)
  are parameters of the embedded functions: arbitrary functions with the
  interface the script uses;
- Python exceptions are `Except` values; an exception escaping the
  `for` loop / `with` block is modelled by returning the state reached at
  the raise point together with the error.
-/

/-- Python `round(a / b)` for natural `a`, `b` with `b ≠ 0`: rounding half
to even (banker's rounding), as Python's builtin `round` does.  This embeds
the expression `round((100.0 * block_num * block_size) / total_size)` of
`UrlretrieveProgressIndicator.__call__` with exact arithmetic in place of
binary floating point. -/
def pyRoundDiv (a b : ℕ) : ℕ :=
  let q := a / b
  let r := a % b
  if 2 * r < b then q
  else if b < 2 * r then q + 1
  else if q % 2 = 0 then q else q + 1

/-- Rounding half to even on the rationals, Python `round` on an exact
value. -/
def roundHalfEven (q : ℚ) : ℤ :=
  if q - ⌊q⌋ < 1 / 2 then ⌊q⌋
  else if 1 / 2 < q - ⌊q⌋ then ⌊q⌋ + 1
  else if ⌊q⌋ % 2 = 0 then ⌊q⌋ else ⌊q⌋ + 1

/-- The state of `class UrlretrieveProgressIndicator`: the single field
`self.last_percentage`, `None` before the first sample. -/
structure UrlretrieveProgressIndicator where
  last_percentage : Option ℕ
deriving DecidableEq

/-- Embeds `UrlretrieveProgressIndicator.__call__(self, block_num, block_size,
total_size)`.  Returns the updated object and the emitted percentage
(`none` when nothing is printed), or an error: with `total_size == 0`
Python raises `ZeroDivisionError` (float division by zero) at
`(100.0 * block_num * block_size) / total_size`, modelled as `.error ()`. -/
def progressCall (self : UrlretrieveProgressIndicator)
    (block_num block_size total_size : ℕ) :
    Except Unit (UrlretrieveProgressIndicator × Option ℕ) :=
  if total_size = 0 then .error ()
  else
    let curr := pyRoundDiv (100 * block_num * block_size) total_size
    if some curr ≠ self.last_percentage then
      .ok (⟨some curr⟩, some curr)
    else
      .ok (self, none)

/-- Failures of the network / local filesystem during a download
(`urllib.request.urlretrieve`). -/
inductive FetchErr where
  | network (msg : String)
  | filesystem (msg : String)
deriving DecidableEq

/-- Failures of the delegated `builder.download_and_prepare` call of the
tensorflow-datasets library. -/
inductive InstallErr where
  | installFailure (msg : String)
deriving DecidableEq

/-- Failures of `tfds.load(..., download=False)`.  The library signals
"dataset/split not present in the registry" by raising `AssertionError`,
but an `AssertionError` can also arise from any other failed assertion
inside the library; any other exception class is a distinct failure kind.
The three constructors keep the semantic condition and the Python
exception class apart so that the `except AssertionError` handler of
`main` can be embedded faithfully. -/
inductive LoadError where
  | assertionNotRegistered
  | assertionOther
  | other (msg : String)
deriving DecidableEq

/-- Which `LoadError`s are instances of Python's `AssertionError` class:
exactly these are caught by `except AssertionError` in `main`. -/
def isAssertionError : LoadError → Bool
  | .assertionNotRegistered => true
  | .assertionOther => true
  | .other _ => false

/-- The filesystem state the script manipulates.  `cache` is the content
of the download-cache directory `./dlcache` as (filename, file bytes)
pairs; `dirs` the set of existing directories (relative to the script);
`stagingDirs` the existing temporary extraction directories and
`stagingFiles` their files as (directory, filename) pairs; `registry` the
splits installed in the tensorflow-datasets registry. -/
structure SysState where
  dirs : List String
  cache : List (String × String)
  stagingDirs : List String
  stagingFiles : List (String × String)
  registry : List String
deriving DecidableEq

/-- The filenames present in the download-cache directory. -/
def cacheNames (s : SysState) : List String :=
  s.cache.map Prod.fst

/-- Embeds `os.path.basename(urllib.parse.urlparse(url).path)`: the part of the
URL after the last slash (none of the manifest URLs carries a query or
fragment, so the parsed path ends the URL and its basename is the last
slash-separated component). -/
def basenameAux : List Char → List Char → List Char
  | [], acc => acc
  | c :: rest, acc =>
    if c = '/' then basenameAux rest []
    else basenameAux rest (acc ++ [c])

/-- The derived local filename of a manifest URL (`file_local` in
`download_coco2017`). -/
def file_local (url : String) : String :=
  ⟨basenameAux url.data []⟩

/-- The fixed manifest: the five files of the COCO 2017 dataset, in the
order `download_coco2017` lists them. -/
def urls : List String :=
  ["http://images.cocodataset.org/annotations/annotations_trainval2017.zip",
   "http://images.cocodataset.org/annotations/image_info_test2017.zip",
   "http://images.cocodataset.org/zips/test2017.zip",
   "http://images.cocodataset.org/zips/train2017.zip",
   "http://images.cocodataset.org/zips/val2017.zip"]

/-- Result of the fetch stage: final filesystem state, the network
requests performed (in order, including a final failed one), the log
lines printed, and the error that aborted the stage, if any. -/
structure FetchOut where
  state : SysState
  requests : List String
  log : List String
  err : Option FetchErr
deriving DecidableEq

/-- Embeds `if not os.path.exists(dlcache_dir): os.makedirs(dlcache_dir)`. -/
def ensureDir (d : String) (s : SysState) : SysState :=
  if d ∈ s.dirs then s else { s with dirs := s.dirs ++ [d] }

/-- The `for url in urls` loop of `download_coco2017`, over an arbitrary
remaining URL list.  `net url` is the outcome of
`urllib.request.urlretrieve(url, ...)`: the downloaded bytes, or the
network/filesystem error it raises.  A raised error aborts the loop at
once, leaving the state reached so far. -/
def fetchGo (net : String → Except FetchErr String) :
    List String → SysState → List String → List String → FetchOut
  | [], s, reqs, log => ⟨s, reqs, log, none⟩
  | url :: rest, s, reqs, log =>
    let fl := file_local url
    if fl ∈ cacheNames s then
      fetchGo net rest s reqs
        (log ++ ["Already downloaded: \x27" ++ url ++ "\x27."])
    else
      match net url with
      | .error e =>
        ⟨s, reqs ++ [url], log ++ ["Downloading \x27" ++ url ++ "\x27..."],
         some e⟩
      | .ok bytes =>
        fetchGo net rest { s with cache := s.cache ++ [(fl, bytes)] }
          (reqs ++ [url])
          (log ++ ["Downloading \x27" ++ url ++ "\x27...", "Done!"])

/-- Embeds `download_coco2017(dlcache_dir)`: ensure the cache directory exists,
then fetch every manifest entry that is not already cached. -/
def download_coco2017 (net : String → Except FetchErr String)
    (s : SysState) : FetchOut :=
  fetchGo net urls (ensureDir "dlcache" s) [] []

/-- Behaviour of the delegated `builder.download_and_prepare` call.
Modelled from the spec: the tensorflow-datasets library itself is not
part of this repository; the spec's external-collaborator contract is a
"build and prepare from a manual source directory into a registry, using
a given extraction directory" operation, so the model maps the cache
content (`manual_dir`) and the current registry to the files it writes
into the extraction directory together with either the new registry
(success) or an `InstallErr` (failure). -/
def DapModel : Type :=
  List (String × String) → List String →
    List String × Except InstallErr (List String)

/-- Embeds `install_coco2017(dlcache_dir)`: create a fresh staging directory
`extract_tmp_<rand>` via `tempfile.TemporaryDirectory(prefix =
"extract_tmp_", dir = <script directory>)`, run the delegated
`download_and_prepare` with `manual_dir` the cache and `extract_dir` the
staging directory, and remove the staging directory with all its contents
when the `with` block exits — on normal return and on a propagating
exception alike.  Returns the final state and the propagated error, if
any. -/
def install_coco2017 (dap : DapModel) (rand : String) (s : SysState) :
    SysState × Option InstallErr :=
  let tmp := "extract_tmp_" ++ rand
  let extracted := (dap s.cache s.registry).1
  let cleanedDirs := (s.stagingDirs ++ [tmp]).erase tmp
  let cleanedFiles := (s.stagingFiles ++ extracted.map (fun f => (tmp, f))).filter
      (fun p => p.1 ≠ tmp)
  match (dap s.cache s.registry).2 with
  | .error e =>
    ({ s with stagingDirs := cleanedDirs, stagingFiles := cleanedFiles }, some e)
  | .ok reg2 =>
    ({ s with
        stagingDirs := cleanedDirs
        stagingFiles := cleanedFiles
        registry := reg2 }, none)

/-- A fatal error escaping `main`: an uncaught load error, or an error
propagated from the fetch or install stage. -/
inductive MainErr where
  | loadErr (e : LoadError)
  | fetchErr (e : FetchErr)
  | installErr (e : InstallErr)
deriving DecidableEq

/-- Observable outcome of one run of `main`: console log, network
requests performed, number of `install_coco2017` calls, whether the
`except AssertionError` branch (the install pipeline) was entered, the
final filesystem state, and the fatal error that escaped, if any. -/
structure MainRes where
  log : List String
  requests : List String
  installCalls : ℕ
  installPipeline : Bool
  state : SysState
  fatal : Option MainErr
deriving DecidableEq

/-- The three `tfds.load("coco/2017", split=..., download=False)` calls
of the `try` block, in program order; the first raised error propagates.
`load split` returns the loaded split's sample count
(`ds.cardinality()`). -/
def loadSplits (load : String → Except LoadError ℕ) :
    Except LoadError (ℕ × ℕ × ℕ) := do
  let a ← load "train"
  let b ← load "validation"
  let c ← load "test"
  pure (a, b, c)

/-- Embeds `main()`.  Try to load the three splits without downloading; on
success print the sample counts and stop.  If the attempt raises an
`AssertionError` (of any cause), run `download_coco2017` then
`install_coco2017`; any other exception, and any exception from the two
stages, propagates as fatal. -/
def Coco2017.main (load : String → Except LoadError ℕ)
    (net : String → Except FetchErr String)
    (dap : DapModel) (rand : String) (s : SysState) : MainRes :=
  match loadSplits load with
  | .ok (a, b, c) =>
    { log := ["COCO 2017 dataset is already installed:",
              "  #samples (train):      " ++ toString a,
              "  #samples (validation): " ++ toString b,
              "  #samples (test):       " ++ toString c],
      requests := [], installCalls := 0, installPipeline := false,
      state := s, fatal := none }
  | .error e =>
    if isAssertionError e then
      let fo := download_coco2017 net s
      match fo.err with
      | some fe =>
        { log := ["COCO 2017 dataset is not installed yet, installing it now..."]
            ++ fo.log,
          requests := fo.requests, installCalls := 0,
          installPipeline := true, state := fo.state,
          fatal := some (.fetchErr fe) }
      | none =>
        { log := ["COCO 2017 dataset is not installed yet, installing it now..."]
            ++ fo.log,
          requests := fo.requests, installCalls := 1,
          installPipeline := true,
          state := (install_coco2017 dap rand fo.state).1,
          fatal := (install_coco2017 dap rand fo.state).2.map .installErr }
    else
      { log := [], requests := [], installCalls := 0,
        installPipeline := false, state := s,
        fatal := some (.loadErr e) }

/-- The registry-root prologue: before importing the library, the script
runs `os.environ["TFDS_DATA_DIR"] = os.path.join(os.path.dirname(
os.path.abspath(__file__)), "tf_datasets")`, so the process environment
seen by the library maps `TFDS_DATA_DIR` to `<scriptDir>/tf_datasets`
whatever the operator put there. -/
def scriptPrologueEnv (scriptDir : String)
    (env : String → Option String) : String → Option String :=
  fun k =>
    if k = "TFDS_DATA_DIR" then some (scriptDir ++ "/tf_datasets")
    else env k

/-- The root directory of the tensorflow-datasets registry: the value of
`TFDS_DATA_DIR` at the moment `tensorflow_datasets` is imported, which
happens right after the prologue assignment. -/
def registryRoot (scriptDir : String)
    (env : String → Option String) : String :=
  (scriptPrologueEnv scriptDir env "TFDS_DATA_DIR").getD ""


/-- Half-even rounding below the midpoint: round down. -/
theorem roundHalfEven_of_lt (q : ℚ) (h : q - ⌊q⌋ < 1 / 2) :
    roundHalfEven q = ⌊q⌋ := by
  rw [roundHalfEven, if_pos h]

/-- Half-even rounding above the midpoint: round up. -/
theorem roundHalfEven_of_gt (q : ℚ) (h : 1 / 2 < q - ⌊q⌋) :
    roundHalfEven q = ⌊q⌋ + 1 := by
  rw [roundHalfEven, if_neg (not_lt.mpr h.le), if_pos h]

/-- Half-even rounding at the midpoint with even floor: round down. -/
theorem roundHalfEven_of_mid_even (q : ℚ) (h : q - ⌊q⌋ = 1 / 2)
    (hp : ⌊q⌋ % 2 = 0) : roundHalfEven q = ⌊q⌋ := by
  rw [roundHalfEven, if_neg (by rw [h]; exact lt_irrefl _),
    if_neg (by rw [h]; exact lt_irrefl _), if_pos hp]

/-- Half-even rounding at the midpoint with odd floor: round up. -/
theorem roundHalfEven_of_mid_odd (q : ℚ) (h : q - ⌊q⌋ = 1 / 2)
    (hp : ⌊q⌋ % 2 ≠ 0) : roundHalfEven q = ⌊q⌋ + 1 := by
  rw [roundHalfEven, if_neg (by rw [h]; exact lt_irrefl _),
    if_neg (by rw [h]; exact lt_irrefl _), if_neg hp]

/-- Helper: `pyRoundDiv` agrees with half-to-even rounding of the exact rational
quotient: the natural-number computation embeds Python `round(a / b)`. -/
theorem pyRoundDiv_eq_roundHalfEven (a b : ℕ) (hb : b ≠ 0) :
    (pyRoundDiv a b : ℤ) = roundHalfEven ((a : ℚ) / (b : ℚ)) := by
  have hbpos : 0 < b := Nat.pos_of_ne_zero hb
  have hbQ : (0 : ℚ) < (b : ℚ) := by exact_mod_cast hbpos
  obtain ⟨n, r, hnr, hrb⟩ : ∃ n r, a = b * n + r ∧ r < b :=
    ⟨a / b, a % b, (Nat.div_add_mod a b).symm, Nat.mod_lt _ hbpos⟩
  have hdiv : a / b = n := by
    rw [hnr, Nat.mul_add_div hbpos, Nat.div_eq_of_lt hrb, add_zero]
  have hmod : a % b = r := by
    rw [hnr, Nat.mul_add_mod, Nat.mod_eq_of_lt hrb]
  have hsplit : (a : ℚ) / (b : ℚ) = (n : ℚ) + (r : ℚ) / (b : ℚ) := by
    have haQ : (a : ℚ) = (b : ℚ) * (n : ℚ) + (r : ℚ) := by
      push_cast [hnr]; ring
    rw [haQ, add_div, mul_comm, mul_div_assoc, div_self (ne_of_gt hbQ), mul_one]
  have hfr0 : (0 : ℚ) ≤ (r : ℚ) / (b : ℚ) := by positivity
  have hfr1 : (r : ℚ) / (b : ℚ) < 1 := by
    rw [div_lt_one hbQ]; exact_mod_cast hrb
  have hfloor : ⌊(a : ℚ) / (b : ℚ)⌋ = (n : ℤ) := by
    rw [hsplit, Int.floor_nat_add,
      Int.floor_eq_zero_iff.mpr (Set.mem_Ico.mpr ⟨hfr0, hfr1⟩), add_zero]
  have hfrac : (a : ℚ) / (b : ℚ) - ⌊(a : ℚ) / (b : ℚ)⌋ = (r : ℚ) / (b : ℚ) := by
    rw [hfloor, hsplit]; push_cast; ring
  rcases Nat.lt_trichotomy (2 * r) b with h | h | h
  · have hcQ : (a : ℚ) / (b : ℚ) - ⌊(a : ℚ) / (b : ℚ)⌋ < 1 / 2 := by
      rw [hfrac, div_lt_div_iff₀ hbQ two_pos]
      have h2 : ((2 * r : ℕ) : ℚ) < (b : ℚ) := by exact_mod_cast h
      push_cast at h2
      linarith
    have hL : pyRoundDiv a b = n := by
      simp only [pyRoundDiv]
      rw [hmod, hdiv, if_pos h]
    rw [hL, roundHalfEven_of_lt _ hcQ, hfloor]
  · have hrpos : 0 < r := by omega
    have hrQ : (0 : ℚ) < (r : ℚ) := by exact_mod_cast hrpos
    have hcQ : (a : ℚ) / (b : ℚ) - ⌊(a : ℚ) / (b : ℚ)⌋ = 1 / 2 := by
      rw [hfrac]
      have hbr : (b : ℚ) = 2 * (r : ℚ) := by exact_mod_cast h.symm
      rw [hbr, div_eq_iff (ne_of_gt (by linarith : (0 : ℚ) < 2 * (r : ℚ)))]
      ring
    by_cases hpar : n % 2 = 0
    · have hL : pyRoundDiv a b = n := by
        simp only [pyRoundDiv]
        rw [hmod, hdiv, if_neg (by omega), if_neg (by omega), if_pos hpar]
      have hparZ : (n : ℤ) % 2 = 0 := by omega
      rw [hL, roundHalfEven_of_mid_even _ hcQ (by rw [hfloor]; exact hparZ), hfloor]
    · have hL : pyRoundDiv a b = n + 1 := by
        simp only [pyRoundDiv]
        rw [hmod, hdiv, if_neg (by omega), if_neg (by omega), if_neg hpar]
      have hparZ : (n : ℤ) % 2 ≠ 0 := by omega
      rw [hL, roundHalfEven_of_mid_odd _ hcQ (by rw [hfloor]; exact hparZ), hfloor]
      push_cast
      ring
  · have hcQ : 1 / 2 < (a : ℚ) / (b : ℚ) - ⌊(a : ℚ) / (b : ℚ)⌋ := by
      rw [hfrac, div_lt_div_iff₀ two_pos hbQ]
      have h2 : (b : ℚ) < ((2 * r : ℕ) : ℚ) := by exact_mod_cast h
      push_cast at h2
      linarith
    have hL : pyRoundDiv a b = n + 1 := by
      simp only [pyRoundDiv]
      rw [hmod, hdiv, if_neg (by omega), if_pos h]
    rw [hL, roundHalfEven_of_gt _ hcQ, hfloor]
    push_cast
    ring

/-- The rounded quotient never undershoots the truncated quotient. -/
theorem div_le_pyRoundDiv (a b : ℕ) : a / b ≤ pyRoundDiv a b := by
  simp only [pyRoundDiv]
  split_ifs
  · exact le_refl _
  · exact Nat.le_succ _
  · exact le_refl _
  · exact Nat.le_succ _

/-- Claim C7: for every sample (block_num, block_size, total_size) with
nonzero total size, `UrlretrieveProgressIndicator.__call__` computes the
percentage as the half-even rounding of
100 * block_num * block_size / total_size, emits an update exactly when
this value differs from the previously emitted one, always emits on the
first sample of a transfer, and afterwards stores the computed value. -/
theorem progress_emits_iff_changed (self : UrlretrieveProgressIndicator)
    (bn bs ts : ℕ) (h : ts ≠ 0) :
    ∃ self2 emitted,
      progressCall self bn bs ts = .ok (self2, emitted) ∧
      (pyRoundDiv (100 * bn * bs) ts : ℤ) =
        roundHalfEven (((100 * bn * bs : ℕ) : ℚ) / (ts : ℚ)) ∧
      (emitted ≠ none ↔ some (pyRoundDiv (100 * bn * bs) ts) ≠ self.last_percentage) ∧
      (∀ p, emitted = some p → p = pyRoundDiv (100 * bn * bs) ts) ∧
      (self.last_percentage = none → emitted = some (pyRoundDiv (100 * bn * bs) ts)) ∧
      self2.last_percentage = some (pyRoundDiv (100 * bn * bs) ts) := by
  have hbridge := pyRoundDiv_eq_roundHalfEven (100 * bn * bs) ts h
  simp only [progressCall, if_neg h]
  by_cases hne : some (pyRoundDiv (100 * bn * bs) ts) ≠ self.last_percentage
  · refine ⟨⟨some (pyRoundDiv (100 * bn * bs) ts)⟩,
      some (pyRoundDiv (100 * bn * bs) ts), ?_, hbridge, ?_, ?_, ?_, rfl⟩
    · rw [if_pos hne]
    · simp [hne]
    · intro p hp
      exact (Option.some_inj.mp hp).symm
    · intro _
      rfl
  · push_neg at hne
    refine ⟨self, none, ?_, hbridge, ?_, ?_, ?_, hne.symm⟩
    · rw [if_neg (by simp [hne])]
    · simp [hne]
    · intro p hp
      cases hp
    · intro hnone
      rw [hnone] at hne
      cases hne

/-- Witness for C7 at the concrete first sample (1, 1, 2) of a fresh
indicator: the computed percentage 50 is emitted. -/
theorem progress_emits_iff_changed_witness :
    (2 : ℕ) ≠ 0 ∧
    (∃ self2 emitted,
      progressCall ⟨none⟩ 1 1 2 = .ok (self2, emitted) ∧
      (pyRoundDiv (100 * 1 * 1) 2 : ℤ) =
        roundHalfEven (((100 * 1 * 1 : ℕ) : ℚ) / ((2 : ℕ) : ℚ)) ∧
      (emitted ≠ none ↔ some (pyRoundDiv (100 * 1 * 1) 2) ≠
        (⟨none⟩ : UrlretrieveProgressIndicator).last_percentage) ∧
      (∀ p, emitted = some p → p = pyRoundDiv (100 * 1 * 1) 2) ∧
      ((⟨none⟩ : UrlretrieveProgressIndicator).last_percentage = none →
        emitted = some (pyRoundDiv (100 * 1 * 1) 2)) ∧
      self2.last_percentage = some (pyRoundDiv (100 * 1 * 1) 2)) :=
  ⟨by decide, progress_emits_iff_changed ⟨none⟩ 1 1 2 (by decide)⟩

/-- Claim C8 (a bug in the code): called with total_size = 0, the
progress callback raises ZeroDivisionError at the float division instead
of completing; the failing input below is any sample whose total size is
zero. -/
theorem progress_zero_total_raises (self : UrlretrieveProgressIndicator)
    (bn bs : ℕ) : progressCall self bn bs 0 = .error () := rfl

/-- Counterexample to claim C10 as stated: at the sample (1001, 1, 1000)
the transferred amount 1001 exceeds the total size 1000, yet the computed
and printed percentage is exactly 100, not strictly greater than 100
(100.1 rounds down). -/
theorem progress_overshoot_rounds_to_100 :
    1000 < 1001 * 1 ∧
    progressCall ⟨none⟩ 1001 1 1000 = .ok (⟨some 100⟩, some 100) ∧
    ¬ 100 < 100 :=
  ⟨by norm_num, rfl, by norm_num⟩

/-- Claim C10 as amended: the progress reporter does not clamp to
[0, 100] — once the transferred amount exceeds the total size the
computed and printed percentage is at least 100, and it exceeds 100 as
soon as the transferred amount reaches twice the total size (a small
overshoot may still round to exactly 100). -/
theorem progress_no_clamp (bn bs ts : ℕ) (h1 : 0 < ts) (h2 : ts < bn * bs) :
    ∃ p, progressCall ⟨none⟩ bn bs ts = .ok (⟨some p⟩, some p) ∧
      p = pyRoundDiv (100 * bn * bs) ts ∧
      100 ≤ p ∧ (2 * ts ≤ bn * bs → 100 < p) := by
  have hts : ts ≠ 0 := Nat.pos_iff_ne_zero.mp h1
  refine ⟨pyRoundDiv (100 * bn * bs) ts, ?_, rfl, ?_, ?_⟩
  · simp only [progressCall, if_neg hts]
    rw [if_pos (Option.some_ne_none _)]
  · have hq : 100 ≤ 100 * bn * bs / ts := by
      rw [Nat.le_div_iff_mul_le h1]
      calc 100 * ts ≤ 100 * (bn * bs) := Nat.mul_le_mul le_rfl h2.le
        _ = 100 * bn * bs := (mul_assoc 100 bn bs).symm
    exact le_trans hq (div_le_pyRoundDiv _ _)
  · intro hge
    have hq : 200 ≤ 100 * bn * bs / ts := by
      rw [Nat.le_div_iff_mul_le h1]
      calc 200 * ts = 100 * (2 * ts) := by ring
        _ ≤ 100 * (bn * bs) := Nat.mul_le_mul le_rfl hge
        _ = 100 * bn * bs := (mul_assoc 100 bn bs).symm
    have := le_trans hq (div_le_pyRoundDiv _ _)
    omega

/-- Witness for the amended C10 at the concrete sample (2, 1, 1): 200% is
computed, printed, and exceeds 100. -/
theorem progress_no_clamp_witness :
    ((0 : ℕ) < 1 ∧ (1 : ℕ) < 2 * 1) ∧
    (∃ p, progressCall ⟨none⟩ 2 1 1 = .ok (⟨some p⟩, some p) ∧
      p = pyRoundDiv (100 * 2 * 1) 1 ∧
      100 ≤ p ∧ (2 * 1 ≤ 2 * 1 → 100 < p)) :=
  ⟨⟨by norm_num, by norm_num⟩, progress_no_clamp 2 1 1 (by norm_num) (by norm_num)⟩

/-- Counterexample to claim C9 as stated: with the operator setting
TFDS_DATA_DIR to /operator/custom before the run, the registry is still
rooted at the script-relative tf_datasets directory — the prologue
assignment overwrites the operator-supplied value instead of consulting
it. -/
theorem registryRoot_ignores_operator_env :
    (fun k => if k = "TFDS_DATA_DIR" then some "/operator/custom"
              else none : String → Option String) "TFDS_DATA_DIR"
      = some "/operator/custom" ∧
    registryRoot "/repo/dataset_coco2017"
      (fun k => if k = "TFDS_DATA_DIR" then some "/operator/custom" else none)
      = "/repo/dataset_coco2017/tf_datasets" ∧
    "/repo/dataset_coco2017/tf_datasets" ≠ "/operator/custom" :=
  ⟨rfl, rfl, by decide⟩

/-- Claim C9 as amended: the Registry root is always ./tf_datasets
relative to the program's location; the program itself assigns the
environment variable before importing the library, overwriting whatever
value the operator supplied, so the operator's setting has no effect. -/
theorem registryRoot_always_script_relative (scriptDir : String)
    (env : String → Option String) :
    scriptPrologueEnv scriptDir env "TFDS_DATA_DIR"
      = some (scriptDir ++ "/tf_datasets") ∧
    registryRoot scriptDir env = scriptDir ++ "/tf_datasets" := by
  constructor
  · simp [scriptPrologueEnv]
  · simp [registryRoot, scriptPrologueEnv]


/-- Claim C6: `install_coco2017` never touches the download-cache
directory — whatever the delegated `download_and_prepare` call does
(succeed or fail), the cache content after the call is byte-for-byte the
content before it, and the set of directories is unchanged too. -/
theorem install_leaves_cache_unchanged (dap : DapModel) (rand : String)
    (s : SysState) :
    (install_coco2017 dap rand s).1.cache = s.cache ∧
    (install_coco2017 dap rand s).1.dirs = s.dirs := by
  unfold install_coco2017
  cases (dap s.cache s.registry).2 <;> exact ⟨rfl, rfl⟩

/-- Claim C2: after `install_coco2017` returns — normally or with the
delegated call's error propagating — the staging directory
extract_tmp_<rand> it created no longer exists, and no file inside it
survives.  The hypothesis is the freshness `tempfile.TemporaryDirectory`
guarantees: the generated name did not exist beforehand. -/
theorem install_staging_dir_removed (dap : DapModel) (rand : String)
    (s : SysState) (h : ("extract_tmp_" ++ rand) ∉ s.stagingDirs) :
    ("extract_tmp_" ++ rand) ∉ (install_coco2017 dap rand s).1.stagingDirs ∧
    ∀ f, ("extract_tmp_" ++ rand, f) ∉ (install_coco2017 dap rand s).1.stagingFiles := by
  have hdirs : (s.stagingDirs ++ ["extract_tmp_" ++ rand]).erase
      ("extract_tmp_" ++ rand) = s.stagingDirs := by
    rw [List.erase_append_right _ h, List.erase_cons_head, List.append_nil]
  have hfiles : ∀ (L : List (String × String)) (f : String),
      ("extract_tmp_" ++ rand, f) ∉
        L.filter (fun p => p.1 ≠ "extract_tmp_" ++ rand) := by
    intro L f hf
    have := (List.mem_filter.mp hf).2
    simp at this
  unfold install_coco2017
  cases (dap s.cache s.registry).2
  all_goals
    show ("extract_tmp_" ++ rand) ∉
        (s.stagingDirs ++ ["extract_tmp_" ++ rand]).erase ("extract_tmp_" ++ rand) ∧
      ∀ f, ("extract_tmp_" ++ rand, f) ∉
        (s.stagingFiles ++ ((dap s.cache s.registry).1).map
          (fun f => ("extract_tmp_" ++ rand, f))).filter
          (fun p => p.1 ≠ "extract_tmp_" ++ rand)
    exact ⟨by rw [hdirs]; exact h, fun f => hfiles _ f⟩

/-- Empty initial filesystem state, used in concrete witnesses. -/
def s0 : SysState := ⟨[], [], [], [], []⟩

/-- A state whose cache directory already holds all five manifest files. -/
def sAllCached : SysState :=
  ⟨["dlcache"],
   [("annotations_trainval2017.zip", "b1"), ("image_info_test2017.zip", "b2"),
    ("test2017.zip", "b3"), ("train2017.zip", "b4"), ("val2017.zip", "b5")],
   [], [], []⟩

/-- A network that answers every request with the same payload. -/
def netOk : String → Except FetchErr String := fun _ => .ok "bytes"

/-- A network on which every request fails with a connection reset. -/
def netDown : String → Except FetchErr String :=
  fun _ => .error (.network "connection reset")

/-- A delegated preparation call that registers the three splits after
writing one intermediate file into the extraction directory. -/
def dapOk : DapModel :=
  fun _ _ => (["extracted.json"], .ok ["train", "validation", "test"])

/-- A delegated preparation call that fails on a corrupt archive after
writing one intermediate file into the extraction directory. -/
def dapFail : DapModel :=
  fun _ _ => (["partial.json"], .error (.installFailure "corrupt archive"))

/-- Witness for C2 at a concrete failing installation: the staging
directory extract_tmp_r0 is gone after the call although the delegated
call failed. -/
theorem install_staging_dir_removed_witness :
    ("extract_tmp_" ++ "r0") ∉ s0.stagingDirs ∧
    (("extract_tmp_" ++ "r0") ∉ (install_coco2017 dapFail "r0" s0).1.stagingDirs ∧
     ∀ f, ("extract_tmp_" ++ "r0", f) ∉
       (install_coco2017 dapFail "r0" s0).1.stagingFiles) :=
  ⟨by decide, install_staging_dir_removed dapFail "r0" s0 (by decide)⟩

/-- Helper: `ensureDir` never changes the cache content. -/
theorem cache_ensureDir (d : String) (s : SysState) :
    (ensureDir d s).cache = s.cache := by
  unfold ensureDir
  split <;> rfl

/-- Helper: `ensureDir` never changes the cache filenames. -/
theorem cacheNames_ensureDir (d : String) (s : SysState) :
    cacheNames (ensureDir d s) = cacheNames s := by
  unfold ensureDir cacheNames
  split <;> rfl

/-- Helper: an entry whose local file is already cached is never
requested by the remainder of the fetch loop. -/
theorem fetchGo_cached_not_requested (net : String → Except FetchErr String) :
    ∀ (us : List String) (s : SysState) (reqs log : List String) (u : String),
      file_local u ∈ cacheNames s → u ∉ reqs →
      u ∉ (fetchGo net us s reqs log).requests := by
  intro us
  induction us with
  | nil =>
    intro s reqs log u _ hnr
    simpa [fetchGo] using hnr
  | cons url rest ih =>
    intro s reqs log u hc hnr
    simp only [fetchGo]
    by_cases hmem : file_local url ∈ cacheNames s
    · rw [if_pos hmem]
      exact ih s reqs _ u hc hnr
    · rw [if_neg hmem]
      have hne : u ≠ url := by
        intro he
        rw [he] at hc
        exact hmem hc
      cases hnet : net url with
      | error e =>
        simp only []
        intro hin
        rcases List.mem_append.mp hin with h' | h'
        · exact hnr h'
        · exact hne (by simpa using h')
      | ok bytes =>
        apply ih
        · show file_local u ∈ cacheNames { s with
            cache := s.cache ++ [(file_local url, bytes)] }
          unfold cacheNames at hc ⊢
          simp only [List.map_append]
          exact List.mem_append_left _ hc
        · intro hin
          rcases List.mem_append.mp hin with h' | h'
          · exact hnr h'
          · exact hne (by simpa using h')

/-- Helper: when every entry's local file is already cached, the fetch
loop only logs skip messages: no request, no state change, no error. -/
theorem fetchGo_all_cached (net : String → Except FetchErr String) :
    ∀ (us : List String) (s : SysState) (reqs log : List String),
      (∀ u ∈ us, file_local u ∈ cacheNames s) →
      fetchGo net us s reqs log =
        ⟨s, reqs,
         log ++ us.map (fun u => "Already downloaded: \x27" ++ u ++ "\x27."),
         none⟩ := by
  intro us
  induction us with
  | nil =>
    intro s reqs log _
    simp [fetchGo]
  | cons url rest ih =>
    intro s reqs log hall
    have hmem := hall url (List.mem_cons_self _ _)
    simp only [fetchGo]
    rw [if_pos hmem, ih s _ _ (fun u hu => hall u (List.mem_cons_of_mem _ hu))]
    simp

/-- Claim C3: the fetch stage is idempotent.  A manifest entry whose
derived local filename is already in the cache directory is never
requested over the network, whatever the other entries do; and when
every manifest entry is already cached, a re-run performs zero network
requests, leaves the cache untouched, reports no error, and only logs
one skip line per entry — the file's existence being the sole check (the
hypothesis constrains the filenames only, never the cached bytes). -/
theorem fetch_idempotent_skips_cached (net : String → Except FetchErr String)
    (s : SysState) (u : String) (_hu : u ∈ urls)
    (hc : file_local u ∈ cacheNames s) :
    u ∉ (download_coco2017 net s).requests ∧
    ((∀ v ∈ urls, file_local v ∈ cacheNames s) →
      (download_coco2017 net s).requests = [] ∧
      (download_coco2017 net s).state.cache = s.cache ∧
      (download_coco2017 net s).err = none ∧
      (download_coco2017 net s).log =
        urls.map (fun v => "Already downloaded: \x27" ++ v ++ "\x27.")) := by
  constructor
  · apply fetchGo_cached_not_requested
    · rw [cacheNames_ensureDir]
      exact hc
    · exact List.not_mem_nil u
  · intro hall
    have hrw := fetchGo_all_cached net urls (ensureDir "dlcache" s) [] []
      (fun v hv => by rw [cacheNames_ensureDir]; exact hall v hv)
    unfold download_coco2017
    rw [hrw]
    exact ⟨rfl, cache_ensureDir _ _, rfl, by simp⟩

/-- Witness for C3: with all five archives already cached, even a dead
network sees zero requests and the stage succeeds by skipping all
entries. -/
theorem fetch_idempotent_skips_cached_witness :
    ("http://images.cocodataset.org/zips/train2017.zip" ∈ urls ∧
     file_local "http://images.cocodataset.org/zips/train2017.zip" ∈
       cacheNames sAllCached) ∧
    ("http://images.cocodataset.org/zips/train2017.zip" ∉
       (download_coco2017 netDown sAllCached).requests ∧
     ((∀ v ∈ urls, file_local v ∈ cacheNames sAllCached) →
       (download_coco2017 netDown sAllCached).requests = [] ∧
       (download_coco2017 netDown sAllCached).state.cache = sAllCached.cache ∧
       (download_coco2017 netDown sAllCached).err = none ∧
       (download_coco2017 netDown sAllCached).log =
         urls.map (fun v => "Already downloaded: \x27" ++ v ++ "\x27."))) :=
  ⟨⟨by decide, by decide⟩,
   fetch_idempotent_skips_cached netDown sAllCached
     "http://images.cocodataset.org/zips/train2017.zip" (by decide) (by decide)⟩

/-- Helper: a failing fetch loop stops at the first entry whose download
raises.  The URL list splits at the failing entry, whose network call
produced the propagated error; the request trace consists of earlier
entries followed by the failing one; and the cache reached so far only
extends the initial cache. -/
theorem fetchGo_err_aborts (net : String → Except FetchErr String) :
    ∀ (us : List String) (s : SysState) (reqs log : List String) (e : FetchErr),
      (fetchGo net us s reqs log).err = some e →
      ∃ pre u post preReqs added,
        us = pre ++ u :: post ∧
        net u = .error e ∧
        (fetchGo net us s reqs log).requests = reqs ++ preReqs ++ [u] ∧
        (∀ v ∈ preReqs, v ∈ pre) ∧
        (fetchGo net us s reqs log).state.cache = s.cache ++ added := by
  intro us
  induction us with
  | nil =>
    intro s reqs log e h
    simp [fetchGo] at h
  | cons url rest ih =>
    intro s reqs log e h
    by_cases hmem : file_local url ∈ cacheNames s
    · have hred : fetchGo net (url :: rest) s reqs log =
          fetchGo net rest s reqs
            (log ++ ["Already downloaded: \x27" ++ url ++ "\x27."]) := by
        simp only [fetchGo]
        rw [if_pos hmem]
      rw [hred] at h ⊢
      obtain ⟨pre, u, post, preReqs, added, h1, h2, h3, h4, h5⟩ :=
        ih s reqs _ e h
      exact ⟨url :: pre, u, post, preReqs, added, by rw [h1]; rfl, h2, h3,
        fun v hv => List.mem_cons_of_mem _ (h4 v hv), h5⟩
    · cases hnet : net url with
      | error e2 =>
        have hred : fetchGo net (url :: rest) s reqs log =
            ⟨s, reqs ++ [url],
             log ++ ["Downloading \x27" ++ url ++ "\x27..."], some e2⟩ := by
          simp only [fetchGo]
          rw [if_neg hmem, hnet]
        rw [hred] at h ⊢
        have he : e2 = e := by simpa using h
        rw [he] at hnet
        exact ⟨[], url, rest, [], [], rfl, hnet, by simp, by simp, by simp⟩
      | ok bytes =>
        have hred : fetchGo net (url :: rest) s reqs log =
            fetchGo net rest
              { s with cache := s.cache ++ [(file_local url, bytes)] }
              (reqs ++ [url])
              (log ++ ["Downloading \x27" ++ url ++ "\x27...", "Done!"]) := by
          simp only [fetchGo]
          rw [if_neg hmem, hnet]
        rw [hred] at h ⊢
        obtain ⟨pre, u, post, preReqs, added, h1, h2, h3, h4, h5⟩ :=
          ih _ _ _ e h
        refine ⟨url :: pre, u, post, url :: preReqs,
          (file_local url, bytes) :: added, by rw [h1]; rfl, h2, ?_, ?_, ?_⟩
        · rw [h3]
          simp
        · intro v hv
          rcases List.mem_cons.mp hv with h' | h'
          · rw [h']
            exact List.mem_cons_self _ _
          · exact List.mem_cons_of_mem _ (h4 v h')
        · rw [h5]
          simp

/-- Claim C5: a network or filesystem error during any download aborts
the whole fetch stage at once and propagates: the manifest splits at the
failing entry, the failed entry's request is the last one made (it is not
retried, and no later entry is fetched), and the cache keeps every file
it held before the stage (plus the entries completed earlier in the run),
ready for resumption. -/
theorem fetch_error_aborts_stage (net : String → Except FetchErr String)
    (s : SysState) (e : FetchErr)
    (h : (download_coco2017 net s).err = some e) :
    ∃ pre u post preReqs added,
      urls = pre ++ u :: post ∧
      net u = .error e ∧
      (download_coco2017 net s).requests = preReqs ++ [u] ∧
      u ∉ preReqs ∧
      (∀ v ∈ preReqs, v ∈ pre) ∧
      (∀ v ∈ post, v ∉ (download_coco2017 net s).requests) ∧
      (download_coco2017 net s).state.cache = s.cache ++ added := by
  have hnd : urls.Nodup := by decide
  unfold download_coco2017 at h ⊢
  obtain ⟨pre, u, post, preReqs, added, h1, h2, h3, h4, h5⟩ :=
    fetchGo_err_aborts net urls (ensureDir "dlcache" s) [] [] e h
  rw [h1, List.nodup_append] at hnd
  obtain ⟨hndpre, hndcons, hdisj⟩ := hnd
  have hupre : u ∉ pre := fun hin => hdisj hin (List.mem_cons_self _ _)
  have hupost : u ∉ post := (List.nodup_cons.mp hndcons).1
  have h3' : (fetchGo net urls (ensureDir "dlcache" s) [] []).requests =
      preReqs ++ [u] := by
    rw [h3]
    simp
  refine ⟨pre, u, post, preReqs, added, h1, h2, h3', ?_, h4, ?_, ?_⟩
  · intro hin
    exact hupre (h4 u hin)
  · intro v hv hvreq
    rw [h3'] at hvreq
    rcases List.mem_append.mp hvreq with h' | h'
    · exact hdisj (h4 v h') (List.mem_cons_of_mem _ hv)
    · rw [(by simpa using h' : v = u)] at hv
      exact hupost hv
  · rw [h5, cache_ensureDir]

/-- Witness for C5: on an empty cache with a dead network, the first
manifest entry's failure aborts the stage with the network error. -/
theorem fetch_error_aborts_stage_witness :
    (download_coco2017 netDown s0).err = some (.network "connection reset") ∧
    (∃ pre u post preReqs added,
      urls = pre ++ u :: post ∧
      netDown u = .error (.network "connection reset") ∧
      (download_coco2017 netDown s0).requests = preReqs ++ [u] ∧
      u ∉ preReqs ∧
      (∀ v ∈ preReqs, v ∈ pre) ∧
      (∀ v ∈ post, v ∉ (download_coco2017 netDown s0).requests) ∧
      (download_coco2017 netDown s0).state.cache = s0.cache ++ added) :=
  ⟨rfl, fetch_error_aborts_stage netDown s0 (.network "connection reset") rfl⟩

/-- Claim C4: when the three splits all load from the registry, `main`
prints the header and the three sample counts, performs zero network
requests and zero install calls, never enters the install pipeline,
leaves the filesystem untouched, and exits without error. -/
theorem orchestrator_installed_reports_counts
    (load : String → Except LoadError ℕ)
    (net : String → Except FetchErr String) (dap : DapModel)
    (rand : String) (s : SysState) (a b c : ℕ)
    (ht : load "train" = .ok a) (hv : load "validation" = .ok b)
    (he : load "test" = .ok c) :
    Coco2017.main load net dap rand s =
      { log := ["COCO 2017 dataset is already installed:",
                "  #samples (train):      " ++ toString a,
                "  #samples (validation): " ++ toString b,
                "  #samples (test):       " ++ toString c],
        requests := [], installCalls := 0, installPipeline := false,
        state := s, fatal := none } := by
  unfold Coco2017.main loadSplits
  rw [ht, hv, he]
  rfl

/-- A registry holding all three splits with the real COCO 2017 sample
counts. -/
def loadFull : String → Except LoadError ℕ :=
  fun split =>
    if split = "train" then .ok 118287
    else if split = "validation" then .ok 5000
    else .ok 40670

/-- Witness for C4 on the fully populated registry: the run prints the
three counts and does nothing else. -/
theorem orchestrator_installed_reports_counts_witness :
    (loadFull "train" = .ok 118287 ∧ loadFull "validation" = .ok 5000 ∧
     loadFull "test" = .ok 40670) ∧
    Coco2017.main loadFull netOk dapOk "r0" s0 =
      { log := ["COCO 2017 dataset is already installed:",
                "  #samples (train):      " ++ toString 118287,
                "  #samples (validation): " ++ toString 5000,
                "  #samples (test):       " ++ toString 40670],
        requests := [], installCalls := 0, installPipeline := false,
        state := s0, fatal := none } :=
  ⟨⟨rfl, rfl, rfl⟩,
   orchestrator_installed_reports_counts loadFull netOk dapOk "r0" s0
     118287 5000 40670 rfl rfl rfl⟩

/-- Counterexample to claim C1 as stated: an AssertionError raised for a
reason other than "dataset/split not present in the registry" is not
fatal — it still sends `main` into the install pipeline (one install
call, no propagated error), because the handler catches the whole
AssertionError class rather than the specific not-registered signal. -/
theorem non_registry_assertion_still_installs :
    isAssertionError .assertionOther = true ∧
    (LoadError.assertionOther ≠ LoadError.assertionNotRegistered) ∧
    (Coco2017.main (fun _ => .error .assertionOther) netOk dapOk "r0" s0).installPipeline
      = true ∧
    (Coco2017.main (fun _ => .error .assertionOther) netOk dapOk "r0" s0).installCalls
      = 1 ∧
    (Coco2017.main (fun _ => .error .assertionOther) netOk dapOk "r0" s0).fatal
      = none :=
  ⟨rfl, by decide, rfl, rfl, rfl⟩

/-- Claim C1 as amended: the transition into the install pipeline is
keyed on the Python exception class, not on the precise registry signal —
when loading the splits raises any AssertionError (the class tfds uses
for "not present in the registry", but also raised by other failed
assertions) `main` enters the install pipeline, while a failure of any
other class is fatal: it propagates out with no download, no install
call, and no state change. -/
theorem orchestrator_assertion_class_triggers_install
    (load : String → Except LoadError ℕ)
    (net : String → Except FetchErr String) (dap : DapModel)
    (rand : String) (s : SysState) (e : LoadError)
    (h : loadSplits load = .error e) :
    (isAssertionError e = true →
      (Coco2017.main load net dap rand s).installPipeline = true) ∧
    (isAssertionError e = false →
      Coco2017.main load net dap rand s =
        { log := [], requests := [], installCalls := 0,
          installPipeline := false, state := s,
          fatal := some (.loadErr e) }) := by
  constructor
  · intro ha
    simp only [Coco2017.main, h]
    rw [if_pos ha]
    cases (download_coco2017 net s).err <;> rfl
  · intro ha
    simp only [Coco2017.main, h]
    rw [if_neg (by rw [ha]; exact Bool.false_ne_true)]

/-- A registry access failing with a non-assertion error (an I/O
failure, say). -/
def loadDiskError : String → Except LoadError ℕ :=
  fun _ => .error (.other "disk io failure")

/-- Witness for the amended C1: a non-AssertionError load failure leaves
`main` with no pipeline entry and the error propagated as fatal. -/
theorem orchestrator_assertion_class_triggers_install_witness :
    loadSplits loadDiskError = .error (.other "disk io failure") ∧
    ((isAssertionError (.other "disk io failure") = true →
       (Coco2017.main loadDiskError netOk dapOk "r0" s0).installPipeline = true) ∧
     (isAssertionError (.other "disk io failure") = false →
       Coco2017.main loadDiskError netOk dapOk "r0" s0 =
         { log := [], requests := [], installCalls := 0,
           installPipeline := false, state := s0,
           fatal := some (.loadErr (.other "disk io failure")) })) :=
  ⟨rfl, orchestrator_assertion_class_triggers_install loadDiskError netOk dapOk
    "r0" s0 (.other "disk io failure") rfl⟩
